import Mathlib

/-!
Verification of the lifecycle controller of sdr_record
(src/src/sdr_record/sdr_record.cpp and sdr_record.hpp), a shallow
embedding in Lean 4.

The embedding translates the source directly:

* struct cmd_args (sdr_record.hpp, lines 28-43) becomes CmdArgs, with the
  same default values for the fields the controller reads (gain = -1,
  rate = 0, rx_freq = 0, run_num = 0, data_dir = ""); the remaining
  fields of the struct (test_config, test_data, gps_target, ping_width_ms,
  ping_min_snr, ping_max_len_mult, ping_min_len_mult, gps_mode,
  frequencies) are never read anywhere in sdr_record.cpp and carry no
  behaviour, so they are omitted.
* SDR_RECORD::process_args becomes process_args, with the boost
  program_options parse modelled as a record of optionally supplied raw
  values (RawOpts) applied over the struct defaults (applyOpts), the
  help branch, and the if-chain of sanity checks (sanity_check).
* SDR_RECORD::sig_handler becomes sig_handler, a trace of the primitive
  actions the handler body performs, in source order.
* SDR_RECORD::print_meta_data becomes print_meta_data; the wall clock
  read (clock_gettime) is an explicit parameter, and the success of
  std::ofstream::open is an explicit boolean parameter.  The source
  never inspects the stream state after open, so the result carries
  fatalError := false on every path; a failed open merely yields no
  file (written := none), exactly as C++ stream semantics give.
* SDR_RECORD::run becomes run_trace, an event trace: metadata first,
  then dsp->startProcessing, then sdr->startStreaming, then the wait
  loop on program_on (waitLoopObs, driven by the observed values of the
  volatile flag and a fuel bound standing for the possibly unbounded
  loop), then sdr->stopStreaming and dsp->stopProcessing.
* SDR_RECORD::init plus main becomes init / program_trace, with SDR
  construction success an explicit boolean (the catch branch of init
  calls exit(1)).

Machine doubles (gain, the start timestamp) are modelled as rationals:
every operation the controller performs on them is a comparison or a
copy, which the rationals reproduce exactly.
-/

namespace RTT

/-- Command-line argument values read by the controller, with the default
values declared in struct cmd_args of sdr_record.hpp. -/
structure CmdArgs where
  gain : ℚ := -1
  rate : Nat := 0
  rx_freq : Nat := 0
  run_num : Nat := 0
  data_dir : String := ""
deriving DecidableEq, Repr

/-- Raw option values as parsed from the command line: each recognized
option is either supplied with a value or absent.  Mirrors the
po::options_description of process_args (help, gain, sampling_freq,
center_freq, run, output, verbose). -/
structure RawOpts where
  help : Bool := false
  gain : Option ℚ := none
  rate : Option Nat := none
  rx_freq : Option Nat := none
  run_num : Option Nat := none
  data_dir : Option String := none
  verbose : Option Nat := none
deriving DecidableEq, Repr

/-- Applying parsed options over the defaults of struct cmd_args:
po::value(&args.field) stores into the field only when the option was
supplied, so an absent option leaves the default from sdr_record.hpp. -/
def applyOpts (o : RawOpts) : CmdArgs :=
  { gain := o.gain.getD (-1)
  , rate := o.rate.getD 0
  , rx_freq := o.rx_freq.getD 0
  , run_num := o.run_num.getD 0
  , data_dir := o.data_dir.getD "" }

/-- The five required configuration fields, named after the members of
cmd_args they validate. -/
inductive ConfigField where
  | runNum
  | gainF
  | dataDir
  | rxFreq
  | rateF
deriving DecidableEq, Repr

/-- The if-chain of sanity checks in process_args (sdr_record.cpp lines
149-182), translated condition by condition in source order: !args.run_num,
args.gain < 0, args.data_dir.empty(), !args.rx_freq, !args.rate.  The
result is the field whose check fired (the one reported by syslog before
the usage text and exit(0)), or none when every check passes. -/
def sanity_check (a : CmdArgs) : Option ConfigField :=
  if a.run_num = 0 then some ConfigField.runNum
  else if a.gain < 0 then some ConfigField.gainF
  else if a.data_dir = "" then some ConfigField.dataDir
  else if a.rx_freq = 0 then some ConfigField.rxFreq
  else if a.rate = 0 then some ConfigField.rateF
  else none

/-- Specification-side rendering of the per-field rejection predicates of
the validation contract (run identifier = 0, gain < 0, empty output
directory, center frequency = 0, sample rate = 0). -/
def fieldRejected (a : CmdArgs) : ConfigField → Bool
  | ConfigField.runNum => decide (a.run_num = 0)
  | ConfigField.gainF => decide (a.gain < 0)
  | ConfigField.dataDir => decide (a.data_dir = "")
  | ConfigField.rxFreq => decide (a.rx_freq = 0)
  | ConfigField.rateF => decide (a.rate = 0)

/-- Specification-side rendering of the fixed checking order: run
identifier → gain → output directory → center frequency → sample rate. -/
def checkOrder : List ConfigField :=
  [ConfigField.runNum, ConfigField.gainF, ConfigField.dataDir,
   ConfigField.rxFreq, ConfigField.rateF]

/-- Specification-side rendering of the validation contract: report the
first offending field in the fixed checking order, or nothing when all
checks pass. -/
def spec_firstRejected (a : CmdArgs) : Option ConfigField :=
  checkOrder.find? (fieldRejected a)

/-- Outcome of process_args: the help branch exits, a failed sanity
check exits (recording the single field whose check fired), or the
validated arguments are handed on. -/
inductive ArgsResult where
  | helpExit
  | configExit (f : ConfigField)
  | ok (a : CmdArgs)
deriving DecidableEq, Repr

/-- SDR_RECORD::process_args (sdr_record.cpp lines 87-183): if the help
option was given, print the options description and exit(0); otherwise
run the sanity checks, and on the first failure print the options
description and exit(0). -/
def process_args (o : RawOpts) : ArgsResult :=
  if o.help then ArgsResult.helpExit
  else
    match sanity_check (applyOpts o) with
    | some f => ArgsResult.configExit f
    | none => ArgsResult.ok (applyOpts o)

/-- Process exit status produced by each outcome of process_args: the
help branch calls exit(0) and every sanity-check failure calls exit(0);
on success process_args returns and no exit happens. -/
def ArgsResult.exitCode : ArgsResult → Option Nat
  | ArgsResult.helpExit => some 0
  | ArgsResult.configExit _ => some 0
  | ArgsResult.ok _ => none

/-- Whether the outcome printed the usage text: both the help branch and
every sanity-check failure print the options description (std::cout
<< desc) before exiting. -/
def ArgsResult.printsUsage : ArgsResult → Bool
  | ArgsResult.ok _ => false
  | _ => true

/-- Primitive actions performed by the body of SDR_RECORD::sig_handler
(sdr_record.cpp lines 204-210): acquire run_mutex through the
unique_lock, store 0 into program_on, release the lock, notify_all on
run_var, and finally the syslog(LOG_WARNING, ...) call on line 209. -/
inductive HandlerAct where
  | lockRunMutex
  | setProgramOff
  | unlockRunMutex
  | notifyAllWaiters
  | syslogWarning
deriving DecidableEq, Repr

/-- SDR_RECORD::sig_handler as the trace of its primitive actions, in
source order.  The sig argument is ignored by the body, as in the
source. -/
def sig_handler (_sig : Int) : List HandlerAct :=
  [HandlerAct.lockRunMutex, HandlerAct.setProgramOff,
   HandlerAct.unlockRunMutex, HandlerAct.notifyAllWaiters,
   HandlerAct.syslogWarning]

/-- Specification-side rendering of the work the handler is permitted:
the state write under its lock (acquire, store, release) and the wake
broadcast.  The syslog call is logging through a non-reentrant path and
is outside this set. -/
def HandlerAct.isStateWriteOrWake : HandlerAct → Bool
  | HandlerAct.syslogWarning => false
  | _ => true

/-- Value written on one line of the metadata file: the integer fields
(center_freq, sampling_freq) and the real-valued fields (start_time,
gain), compared at the level of the numbers the source streams out. -/
inductive MetaVal where
  | natVal (n : Nat)
  | ratVal (q : ℚ)
deriving DecidableEq, Repr

/-- Zero padding applied by std::setw(6) with std::setfill of the zero
character: pad the decimal rendering on the left to at least six
characters; a longer rendering is not truncated. -/
def pad6 (n : Nat) : String :=
  let s := toString n
  String.mk (List.replicate (6 - s.length) (Char.ofNat 48)) ++ s

/-- Result of SDR_RECORD::print_meta_data: the path handed to open, the
key/value lines streamed out (none when the open failed, since every
write to a failed ofstream is discarded), and whether any failure was
raised.  The source checks nothing after open and has no failure path,
so fatalError is false on every branch. -/
structure MetaResult where
  path : String
  written : Option (List (String × MetaVal))
  fatalError : Bool
deriving DecidableEq, Repr

/-- SDR_RECORD::print_meta_data (sdr_record.cpp lines 212-232): build
the path data_dir / META_ followed by the run number padded to six
digits, open the stream there, and stream the four lines start_time,
center_freq, sampling_freq, gain from the current clock and the parsed
arguments.  now is the value of clock_gettime, openOk whether the open
succeeded. -/
def print_meta_data (a : CmdArgs) (now : ℚ) (openOk : Bool) : MetaResult :=
  { path := a.data_dir ++ "/" ++ "META_" ++ pad6 a.run_num
  , written :=
      if openOk then
        some [("start_time", MetaVal.ratVal now),
              ("center_freq", MetaVal.natVal a.rx_freq),
              ("sampling_freq", MetaVal.natVal a.rate),
              ("gain", MetaVal.ratVal a.gain)]
      else none
  , fatalError := false }

/-- Observable events of SDR_RECORD::run and SDR_RECORD::init, in the
order the source performs them. -/
inductive Event where
  | validateOk
  | constructSDR
  | printMeta
  | startProcessing
  | startStreaming
  | lockRun
  | checkState (flag : Bool)
  | waitFor (ms : Nat)
  | unlockRun
  | stopStreaming
  | stopProcessing
  | exitEv (code : Nat)
deriving DecidableEq, Repr

/-- The wait loop of SDR_RECORD::run (sdr_record.cpp lines 247-254).
Each iteration constructs the unique_lock on run_mutex, reads
program_on, and either waits on run_var with a 100 millisecond timeout
and loops, or breaks.  obs i is the value of the volatile flag
program_on read at the i-th iteration; fuel bounds the number of
iterations unrolled (the C++ loop itself is unbounded, so an execution
that exits the loop is one whose trace ends with the flag observed
false within the fuel).  Returns the event trace and whether the loop
exited. -/
def waitLoopObs (obs : Nat → Bool) : Nat → Nat → List Event × Bool
  | _, 0 => ([], false)
  | i, fuel + 1 =>
    if obs i then
      let r := waitLoopObs obs (i + 1) fuel
      ([Event.lockRun, Event.checkState true, Event.waitFor 100,
        Event.unlockRun] ++ r.1, r.2)
    else
      ([Event.lockRun, Event.checkState false, Event.unlockRun], true)

/-- SDR_RECORD::run (sdr_record.cpp lines 239-258) as an event trace:
print_meta_data, then dsp startProcessing, then sdr startStreaming,
then the wait loop; when the loop exits, sdr stopStreaming then dsp
stopProcessing.  openOk is the open success inside print_meta_data; the
source never consults it, which the trace reflects by not depending on
it. -/
def run_trace (_openOk : Bool) (obs : Nat → Bool) (fuel : Nat) : List Event :=
  let r := waitLoopObs obs 0 fuel
  [Event.printMeta, Event.startProcessing, Event.startStreaming] ++ r.1 ++
    (if r.2 then [Event.stopStreaming, Event.stopProcessing] else [])

/-- Outcome of SDR_RECORD::init: either the process exited (with the
given status) or the stages are constructed and the validated arguments
held. -/
inductive InitResult where
  | exited (code : Nat)
  | ready (a : CmdArgs)
deriving DecidableEq, Repr

/-- SDR_RECORD::init (sdr_record.cpp lines 185-202): process_args first
(its failure paths exit the process with status 0), then construction
of the SDR; when construction throws because no device is found, the
catch branch logs and calls exit(1). -/
def init (o : RawOpts) (deviceAvailable : Bool) : InitResult :=
  match process_args o with
  | ArgsResult.ok a =>
      if deviceAvailable then InitResult.ready a else InitResult.exited 1
  | ArgsResult.helpExit => InitResult.exited 0
  | ArgsResult.configExit _ => InitResult.exited 0

/-- Number of times init attempts to construct the SDR: the single new
expression inside the try block runs once whenever process_args
returns, and the catch branch exits instead of retrying. -/
def sdrConstructAttempts (o : RawOpts) : Nat :=
  match process_args o with
  | ArgsResult.ok _ => 1
  | _ => 0

/-- The whole program (main → init → run) as an event trace:
validation, SDR construction, then the run trace; an exit on a failure
path ends the trace. -/
def program_trace (o : RawOpts) (deviceAvailable openOk : Bool)
    (obs : Nat → Bool) (fuel : Nat) : List Event :=
  match process_args o with
  | ArgsResult.ok _ =>
      Event.validateOk :: Event.constructSDR ::
        (if deviceAvailable then run_trace openOk obs fuel
         else [Event.exitEv 1])
  | ArgsResult.helpExit => [Event.exitEv 0]
  | ArgsResult.configExit _ => [Event.exitEv 0]

/-- Events that can occur inside the wait loop body. -/
def Event.isLoopEvent : Event → Bool
  | Event.lockRun => true
  | Event.checkState _ => true
  | Event.waitFor _ => true
  | Event.unlockRun => true
  | _ => false

/-- Lock acquisitions of run_mutex. -/
def Event.isLock : Event → Bool
  | Event.lockRun => true
  | _ => false

/-- Reads of the shared flag program_on. -/
def Event.isCheck : Event → Bool
  | Event.checkState _ => true
  | _ => false

/-- Reads of program_on that observed the stopping state. -/
def Event.isStopCheck : Event → Bool
  | Event.checkState false => true
  | _ => false

/-- Timed waits on run_var. -/
def Event.isWait : Event → Bool
  | Event.waitFor _ => true
  | _ => false

/-- A concrete valid configuration (the end-to-end scenario values). -/
def argsEx : CmdArgs :=
  { gain := 30, rate := 2000000, rx_freq := 150000000, run_num := 7,
    data_dir := "/tmp/run" }

/-- Concrete raw options supplying every required value. -/
def optsEx : RawOpts :=
  { help := false, gain := some 30, rate := some 2000000,
    rx_freq := some 150000000, run_num := some 7,
    data_dir := some "/tmp/run", verbose := none }

/-- A command line supplying no options at all. -/
def noneOpts : RawOpts := {}

/-- A command line supplying only the help option. -/
def helpOpts : RawOpts := { help := true }

/-- The concrete options with every required value except an explicit
gain of zero. -/
def zeroGainOpts : RawOpts := { optsEx with gain := some 0 }

/-- A valid configuration whose output directory does not exist, so the
metadata open fails. -/
def argsBadDir : CmdArgs := { argsEx with data_dir := "/nonexistent" }

/-- The configuration consisting entirely of the struct defaults, as
left by a command line supplying nothing. -/
def defaultArgs : CmdArgs := {}

/-- The command line that supplies exactly the five required values of a
given configuration explicitly. -/
def explicitOpts (a : CmdArgs) : RawOpts :=
  { gain := some a.gain, rate := some a.rate, rx_freq := some a.rx_freq,
    run_num := some a.run_num, data_dir := some a.data_dir }

/-! Helper lemmas about the sanity checks. -/

/-- The if-chain of sanity checks passes exactly when every one of the
five field conditions holds. -/
lemma sanity_check_eq_none_iff (a : CmdArgs) :
    sanity_check a = none ↔
      (a.run_num ≠ 0 ∧ ¬ a.gain < 0 ∧ a.data_dir ≠ "" ∧
       a.rx_freq ≠ 0 ∧ a.rate ≠ 0) := by
  simp only [sanity_check]
  split_ifs <;> simp [*]

/-- The if-chain of sanity checks computes the first field of the fixed
checking order whose rejection predicate holds. -/
lemma sanity_check_eq_firstRejected (a : CmdArgs) :
    sanity_check a = spec_firstRejected a := by
  simp only [sanity_check, spec_firstRejected, checkOrder, List.find?,
    fieldRejected]
  split_ifs <;> simp [*]

/-- Claim C3: for every set of raw option values, configuration
validation checks the required fields in the fixed order run identifier,
gain, output directory, center frequency, sample rate, rejecting run
identifier = 0, gain < 0, empty output directory, center frequency = 0
and sample rate = 0, reporting only the first offending field in that
order before exiting; if all checks pass, validation succeeds with no
report. -/
theorem sanity_check_first_offending_field (a : CmdArgs) :
    sanity_check a = spec_firstRejected a ∧
    (sanity_check a = none ↔
      (a.run_num ≠ 0 ∧ ¬ a.gain < 0 ∧ a.data_dir ≠ "" ∧
       a.rx_freq ≠ 0 ∧ a.rate ≠ 0)) ∧
    (∀ f, sanity_check a = some f →
      (process_args (explicitOpts a)).exitCode = some 0) :=
  ⟨sanity_check_eq_firstRejected a, sanity_check_eq_none_iff a, by
    intro f hf
    have happ : applyOpts (explicitOpts a) = a := rfl
    have hhelp : (explicitOpts a).help = false := rfl
    simp [process_args, hhelp, happ, hf, ArgsResult.exitCode]⟩

/-- Claim C3 witness: on the all-defaults configuration the first
offending field in the fixed order is the run identifier, and the
process exits with status 0. -/
theorem sanity_check_first_offending_field_witness :
    sanity_check defaultArgs = spec_firstRejected defaultArgs ∧
    (process_args (explicitOpts defaultArgs)).exitCode = some 0 :=
  ⟨(sanity_check_first_offending_field defaultArgs).1,
   (sanity_check_first_offending_field defaultArgs).2.2
     ConfigField.runNum (by decide)⟩

/-- Claim C6: for every invocation missing a required option, the
program prints usage information and the process exits with status 0,
the same status as an explicit help request. -/
theorem missing_required_option_exits_zero (o : RawOpts)
    (h : o.gain = none ∨ o.rate = none ∨ o.rx_freq = none ∨
         o.run_num = none ∨ o.data_dir = none) :
    (process_args o).exitCode = some 0 ∧
    (process_args o).printsUsage = true ∧
    (process_args o).exitCode = (process_args helpOpts).exitCode := by
  have hhelp : (process_args helpOpts).exitCode = some 0 := rfl
  by_cases hh : o.help
  · simp only [process_args, hh, if_true, hhelp]
    exact ⟨rfl, rfl, rfl⟩
  · have hfail : sanity_check (applyOpts o) ≠ none := by
      simp only [ne_eq, sanity_check_eq_none_iff]
      rcases h with h | h | h | h | h <;> simp [applyOpts, h]
    cases hsc : sanity_check (applyOpts o) with
    | none => exact absurd hsc hfail
    | some f =>
        simp only [process_args, hh, if_false, Bool.false_eq_true, hsc,
          hhelp]
        exact ⟨rfl, rfl, rfl⟩

/-- Claim C6 witness: the empty command line is missing every required
option and exits with status 0 after printing usage. -/
theorem missing_required_option_exits_zero_witness :
    (process_args noneOpts).exitCode = some 0 ∧
    (process_args noneOpts).printsUsage = true ∧
    (process_args noneOpts).exitCode = (process_args helpOpts).exitCode :=
  missing_required_option_exits_zero noneOpts (Or.inl rfl)

/-- Claim C10: an omitted required option is rejected by validation
solely because of the default value the field keeps (gain defaults to
-1; run number, sample rate and center frequency default to 0; the
output directory defaults to the empty string); an omitted option is
therefore indistinguishable from the same value supplied explicitly,
and an explicitly supplied gain of 0 passes the gain check. -/
theorem omitted_option_rejected_by_default (o : RawOpts) :
    ((o.run_num = none → (applyOpts o).run_num = 0 ∧
        fieldRejected (applyOpts o) ConfigField.runNum = true) ∧
     (o.gain = none → (applyOpts o).gain = -1 ∧
        fieldRejected (applyOpts o) ConfigField.gainF = true) ∧
     (o.rate = none → (applyOpts o).rate = 0 ∧
        fieldRejected (applyOpts o) ConfigField.rateF = true) ∧
     (o.rx_freq = none → (applyOpts o).rx_freq = 0 ∧
        fieldRejected (applyOpts o) ConfigField.rxFreq = true) ∧
     (o.data_dir = none → (applyOpts o).data_dir = "" ∧
        fieldRejected (applyOpts o) ConfigField.dataDir = true)) ∧
    ((o.run_num = none →
        process_args o = process_args { o with run_num := some 0 }) ∧
     (o.gain = none →
        process_args o = process_args { o with gain := some (-1) }) ∧
     (o.rate = none →
        process_args o = process_args { o with rate := some 0 }) ∧
     (o.rx_freq = none →
        process_args o = process_args { o with rx_freq := some 0 }) ∧
     (o.data_dir = none →
        process_args o = process_args { o with data_dir := some "" })) ∧
    (o.gain = some 0 →
        fieldRejected (applyOpts o) ConfigField.gainF = false) := by
  refine ⟨⟨?_, ?_, ?_, ?_, ?_⟩, ⟨?_, ?_, ?_, ?_, ?_⟩, ?_⟩ <;>
    intro h <;> simp [applyOpts, fieldRejected, process_args, h]

/-- Claim C10 witness: on the empty command line the gain check fires
against the default -1, while an explicit gain of 0 passes the gain
check. -/
theorem omitted_option_rejected_by_default_witness :
    fieldRejected (applyOpts noneOpts) ConfigField.gainF = true ∧
    fieldRejected (applyOpts zeroGainOpts) ConfigField.gainF = false :=
  ⟨((omitted_option_rejected_by_default noneOpts).1.2.1 rfl).2,
   (omitted_option_rejected_by_default zeroGainOpts).2.2 rfl⟩

/-! Helper lemmas about the wait loop of run. -/

/-- Every event of the wait-loop trace is a lock acquisition, a flag
read, a timed wait or a lock release. -/
lemma mem_waitLoopObs_isLoopEvent (obs : Nat → Bool) :
    ∀ fuel i e, e ∈ (waitLoopObs obs i fuel).1 →
      Event.isLoopEvent e = true := by
  intro fuel
  induction fuel with
  | zero => intro i e h; simp [waitLoopObs] at h
  | succ n ih =>
      intro i e h
      by_cases hob : obs i
      · simp only [waitLoopObs, hob, if_true, List.mem_append,
          List.mem_cons, List.not_mem_nil, or_false] at h
        rcases h with (h | h | h | h) | h
        · subst h; rfl
        · subst h; rfl
        · subst h; rfl
        · subst h; rfl
        · exact ih (i + 1) e h
      · simp only [waitLoopObs, hob, if_false, Bool.false_eq_true,
          List.mem_cons, List.not_mem_nil, or_false] at h
        rcases h with h | h | h <;> subst h <;> rfl

/-- Every timed wait of the wait-loop trace has the 100 millisecond
timeout. -/
lemma waitFor_waitLoopObs (obs : Nat → Bool) :
    ∀ fuel i d, Event.waitFor d ∈ (waitLoopObs obs i fuel).1 →
      d = 100 := by
  intro fuel
  induction fuel with
  | zero => intro i d h; simp [waitLoopObs] at h
  | succ n ih =>
      intro i d h
      by_cases hob : obs i
      · simp only [waitLoopObs, hob, if_true, List.mem_append,
          List.mem_cons, List.not_mem_nil, or_false] at h
        rcases h with (h | h | h | h) | h
        · exact absurd h (by simp)
        · exact absurd h (by simp)
        · exact (Event.waitFor.injEq d 100).mp h
        · exact absurd h (by simp)
        · exact ih (i + 1) d h
      · simp only [waitLoopObs, hob, if_false, Bool.false_eq_true,
          List.mem_cons, List.not_mem_nil, or_false] at h
        rcases h with h | h | h <;> exact absurd h (by simp)

/-- Each iteration of the wait loop contributes exactly one lock
acquisition and one read of the shared flag, so the two counts agree. -/
lemma waitLoopObs_locks_eq_checks (obs : Nat → Bool) :
    ∀ fuel i,
      (waitLoopObs obs i fuel).1.countP Event.isLock =
        (waitLoopObs obs i fuel).1.countP Event.isCheck := by
  intro fuel
  induction fuel with
  | zero => intro i; simp [waitLoopObs]
  | succ n ih =>
      intro i
      by_cases hob : obs i
      · simp [waitLoopObs, hob, List.countP_append, List.countP_cons,
          Event.isLock, Event.isCheck, ih (i + 1)]
      · simp [waitLoopObs, hob, List.countP_cons, Event.isLock,
          Event.isCheck]

/-- If the shared flag reads false j iterations ahead and the fuel
covers that point, the wait loop exits, performing at most j timed
waits on the way. -/
lemma waitLoopObs_exits (obs : Nat → Bool) :
    ∀ j i fuel, obs (i + j) = false → j < fuel →
      (waitLoopObs obs i fuel).2 = true ∧
      (waitLoopObs obs i fuel).1.countP Event.isWait ≤ j := by
  intro j
  induction j with
  | zero =>
      intro i fuel h hf
      obtain ⟨n, rfl⟩ : ∃ n, fuel = n + 1 := ⟨fuel - 1, by omega⟩
      have hob : obs i = false := by simpa using h
      simp [waitLoopObs, hob, List.countP_cons, Event.isWait]
  | succ j ih =>
      intro i fuel h hf
      obtain ⟨n, rfl⟩ : ∃ n, fuel = n + 1 := ⟨fuel - 1, by omega⟩
      by_cases hob : obs i
      · have h2 : obs ((i + 1) + j) = false := by
          have : (i + 1) + j = i + (j + 1) := by omega
          rw [this]; exact h
        have hrec := ih (i + 1) n h2 (by omega)
        refine ⟨?_, ?_⟩
        · simp only [waitLoopObs, hob, if_true]
          exact hrec.1
        · have hfront : [Event.lockRun, Event.checkState true,
              Event.waitFor 100, Event.unlockRun].countP Event.isWait
                = 1 := rfl
          simp only [waitLoopObs, hob, if_true, List.countP_append,
            hfront]
          have h2c := hrec.2
          omega
      · simp [waitLoopObs, hob, List.countP_cons, Event.isWait]

/-- When the wait loop exits, the stopping state was observed by exactly
one flag read (the final one); while it spins, no read observes it. -/
lemma waitLoopObs_stopCheck_count (obs : Nat → Bool) :
    ∀ fuel i,
      (waitLoopObs obs i fuel).1.countP Event.isStopCheck =
        (if (waitLoopObs obs i fuel).2 then 1 else 0) := by
  intro fuel
  induction fuel with
  | zero => intro i; simp [waitLoopObs]
  | succ n ih =>
      intro i
      by_cases hob : obs i
      · simp [waitLoopObs, hob, List.countP_append, List.countP_cons,
          Event.isStopCheck, ih (i + 1)]
      · simp [waitLoopObs, hob, List.countP_cons, Event.isStopCheck]

/-- Claim C1: in every execution of run whose wait loop exits, the
stream source stopStreaming call happens strictly before the processing
stage stopProcessing call, in that fixed order: the trace ends with the
two stop calls adjacent and in order, and neither occurs anywhere
earlier. -/
theorem run_stops_streaming_before_processing (openOk : Bool)
    (obs : Nat → Bool) (fuel : Nat)
    (h : (waitLoopObs obs 0 fuel).2 = true) :
    ∃ p, run_trace openOk obs fuel =
        p ++ [Event.stopStreaming, Event.stopProcessing] ∧
      Event.stopStreaming ∉ p ∧ Event.stopProcessing ∉ p := by
  refine ⟨[Event.printMeta, Event.startProcessing, Event.startStreaming]
      ++ (waitLoopObs obs 0 fuel).1, ?_, ?_, ?_⟩
  · simp [run_trace, h]
  · intro hmem
    simp only [List.mem_append, List.mem_cons, List.not_mem_nil,
      or_false] at hmem
    rcases hmem with (h1 | h1 | h1) | h1
    · exact Event.noConfusion h1
    · exact Event.noConfusion h1
    · exact Event.noConfusion h1
    · have := mem_waitLoopObs_isLoopEvent obs fuel 0 _ h1
      exact absurd this (by simp [Event.isLoopEvent])
  · intro hmem
    simp only [List.mem_append, List.mem_cons, List.not_mem_nil,
      or_false] at hmem
    rcases hmem with (h1 | h1 | h1) | h1
    · exact Event.noConfusion h1
    · exact Event.noConfusion h1
    · exact Event.noConfusion h1
    · have := mem_waitLoopObs_isLoopEvent obs fuel 0 _ h1
      exact absurd this (by simp [Event.isLoopEvent])

/-- Claim C1 witness: with the stopping state already observed at the
first read and one unit of fuel, the loop exits and the trace ends with
stopStreaming immediately followed by stopProcessing. -/
theorem run_stops_streaming_before_processing_witness :
    ∃ p, run_trace true (fun _ => false) 1 =
        p ++ [Event.stopStreaming, Event.stopProcessing] ∧
      Event.stopStreaming ∉ p ∧ Event.stopProcessing ∉ p :=
  run_stops_streaming_before_processing true (fun _ => false) 1 rfl

/-- Claim C8: in every run (validation succeeded and the SDR was
constructed), the metadata record is written exactly once, after the
successful validation and before the processing thread and the
streaming thread are started: the program trace begins with
validation, construction, the single printMeta event, then
startProcessing, then startStreaming, and printMeta never occurs
again. -/
theorem metadata_written_once_before_threads (o : RawOpts) (a : CmdArgs)
    (openOk : Bool) (obs : Nat → Bool) (fuel : Nat)
    (h : process_args o = ArgsResult.ok a) :
    ∃ rest, program_trace o true openOk obs fuel =
        [Event.validateOk, Event.constructSDR, Event.printMeta,
         Event.startProcessing, Event.startStreaming] ++ rest ∧
      Event.printMeta ∉ rest := by
  refine ⟨(waitLoopObs obs 0 fuel).1 ++
      (if (waitLoopObs obs 0 fuel).2 then
        [Event.stopStreaming, Event.stopProcessing] else []), ?_, ?_⟩
  · simp [program_trace, h, run_trace]
  · intro hmem
    simp only [List.mem_append] at hmem
    rcases hmem with h1 | h1
    · have := mem_waitLoopObs_isLoopEvent obs fuel 0 _ h1
      exact absurd this (by simp [Event.isLoopEvent])
    · by_cases hex : (waitLoopObs obs 0 fuel).2
      · rw [if_pos hex] at h1
        simp at h1
      · rw [if_neg hex] at h1
        simp at h1

/-- Claim C8 witness: the concrete valid command line with an available
device yields a trace starting with validation, construction, one
metadata write, then the two thread starts. -/
theorem metadata_written_once_before_threads_witness :
    ∃ rest, program_trace optsEx true true (fun _ => false) 1 =
        [Event.validateOk, Event.constructSDR, Event.printMeta,
         Event.startProcessing, Event.startStreaming] ++ rest ∧
      Event.printMeta ∉ rest :=
  metadata_written_once_before_threads optsEx argsEx true
    (fun _ => false) 1 (by decide)

/-- Claim C9: the wait loop re-acquires the state lock and re-checks
the shared program state on every iteration (lock acquisitions and flag
reads are in one-to-one correspondence), every wait is bounded by the
100 millisecond timeout rather than indefinite, and the loop exits on
the first check observing the stopping state: when the flag reads false
at iteration k within the fuel, the loop exits, exactly one read
observes the stopping state, and at most k bounded waits (none after
the observation) are performed, so the loop is left within one bounded
wait interval of the transition even if a wake notification is
missed. -/
theorem wait_loop_bounded_polling (obs : Nat → Bool) (k fuel : Nat)
    (hk : obs k = false) (hf : k < fuel) :
    (waitLoopObs obs 0 fuel).2 = true ∧
    (waitLoopObs obs 0 fuel).1.countP Event.isLock =
      (waitLoopObs obs 0 fuel).1.countP Event.isCheck ∧
    (∀ d, Event.waitFor d ∈ (waitLoopObs obs 0 fuel).1 → d = 100) ∧
    (waitLoopObs obs 0 fuel).1.countP Event.isStopCheck = 1 ∧
    (waitLoopObs obs 0 fuel).1.countP Event.isWait ≤ k := by
  have hexit := waitLoopObs_exits obs k 0 fuel (by simpa using hk) hf
  refine ⟨hexit.1, waitLoopObs_locks_eq_checks obs fuel 0, ?_, ?_, hexit.2⟩
  · intro d hd
    exact waitFor_waitLoopObs obs fuel 0 d hd
  · rw [waitLoopObs_stopCheck_count obs fuel 0, hexit.1]
    rfl

/-- Claim C9 witness: with the stopping state observed at the first
read, the loop exits with no wait at all, one lock, one check. -/
theorem wait_loop_bounded_polling_witness :
    (waitLoopObs (fun _ => false) 0 1).2 = true ∧
    (waitLoopObs (fun _ => false) 0 1).1.countP Event.isLock =
      (waitLoopObs (fun _ => false) 0 1).1.countP Event.isCheck ∧
    (∀ d, Event.waitFor d ∈ (waitLoopObs (fun _ => false) 0 1).1 →
      d = 100) ∧
    (waitLoopObs (fun _ => false) 0 1).1.countP Event.isStopCheck = 1 ∧
    (waitLoopObs (fun _ => false) 0 1).1.countP Event.isWait ≤ 0 :=
  wait_loop_bounded_polling (fun _ => false) 0 1 rfl (by decide)

/-- Claim C5: for every valid configuration, metadata recording writes
the file at the path output directory, slash, META_ followed by the run
identifier zero-padded to six digits, and its lines are start_time,
center_freq, sampling_freq and gain, the last three carrying exactly
the corresponding fields of the configuration. -/
theorem metadata_path_and_contents (a : CmdArgs) (now : ℚ)
    (_h : sanity_check a = none) :
    (print_meta_data a now true).path =
      a.data_dir ++ "/" ++ "META_" ++ pad6 a.run_num ∧
    (print_meta_data a now true).written =
      some [("start_time", MetaVal.ratVal now),
            ("center_freq", MetaVal.natVal a.rx_freq),
            ("sampling_freq", MetaVal.natVal a.rate),
            ("gain", MetaVal.ratVal a.gain)] :=
  ⟨rfl, rfl⟩

/-- Claim C5 witness: the end-to-end scenario configuration produces
the path /tmp/run/META_000007 and lines echoing center_freq
150000000, sampling_freq 2000000, gain 30. -/
theorem metadata_path_and_contents_witness :
    (print_meta_data argsEx 0 true).path = "/tmp/run/META_000007" ∧
    (print_meta_data argsEx 0 true).written =
      some [("start_time", MetaVal.ratVal 0),
            ("center_freq", MetaVal.natVal 150000000),
            ("sampling_freq", MetaVal.natVal 2000000),
            ("gain", MetaVal.ratVal 30)] := by
  have h := metadata_path_and_contents argsEx 0 (by decide)
  exact ⟨h.1.trans (by decide), h.2⟩

/-- Claim C4 (code divergence): when the metadata output file cannot be
opened at the derived path, the source raises no fatal error and makes
no report: print_meta_data has no failure path (fatalError is false),
nothing is written, and run proceeds with exactly the same trace as
when the open succeeds, so the open failure is silently ignored. -/
theorem metadata_open_failure_silently_ignored :
    (print_meta_data argsBadDir 0 false).fatalError = false ∧
    (print_meta_data argsBadDir 0 false).written = none ∧
    run_trace false (fun _ => false) 1 =
      run_trace true (fun _ => false) 1 ∧
    Event.startProcessing ∈ run_trace false (fun _ => false) 1 ∧
    Event.startStreaming ∈ run_trace false (fun _ => false) 1 := by
  refine ⟨rfl, rfl, rfl, ?_, ?_⟩ <;> decide

/-- Claim C2 (code divergence): the termination signal handler does not
perform only the state write under lock and the wake broadcast: after
notify_all it calls syslog, a non-reentrant logging path, so its action
trace contains an action outside the permitted set. -/
theorem sig_handler_calls_syslog :
    HandlerAct.syslogWarning ∈ sig_handler 2 ∧
    HandlerAct.isStateWriteOrWake HandlerAct.syslogWarning = false ∧
    ¬ (∀ act ∈ sig_handler 2, HandlerAct.isStateWriteOrWake act = true) := by
  decide

/-- Claim C7: when construction of the stream source fails because no
compatible device is found, init exits the process with status 1,
distinct from the status 0 used for help and for validation failure,
and construction is attempted exactly once, with no retry. -/
theorem no_device_exits_nonzero (o : RawOpts) (a : CmdArgs)
    (h : process_args o = ArgsResult.ok a) :
    init o false = InitResult.exited 1 ∧
    (1 : Nat) ≠ 0 ∧
    ArgsResult.helpExit.exitCode = some 0 ∧
    (∀ f, (ArgsResult.configExit f).exitCode = some 0) ∧
    sdrConstructAttempts o = 1 := by
  refine ⟨?_, by decide, rfl, fun f => rfl, ?_⟩ <;>
    simp [init, sdrConstructAttempts, h]

/-- Claim C7 witness: the concrete valid command line with no device
available exits with status 1 after a single construction attempt. -/
theorem no_device_exits_nonzero_witness :
    init optsEx false = InitResult.exited 1 ∧
    (1 : Nat) ≠ 0 ∧
    ArgsResult.helpExit.exitCode = some 0 ∧
    (∀ f, (ArgsResult.configExit f).exitCode = some 0) ∧
    sdrConstructAttempts optsEx = 1 :=
  no_device_exits_nonzero optsEx argsEx (by decide)

end RTT
